import Mathlib

/-!
Verification development for the SYCL/ESIMD lowering pass (`LowerESIMD.cpp`)
and the SYCL kernel construction machinery (`SemaSYCL.cpp`).

The C++ sources are shallowly embedded: each C++ function relevant to a
verified property is translated into an executable Lean definition that
mirrors its control flow; machine integers become `Nat`/`Int`; fallible
paths (`report_fatal_error`, `llvm_unreachable`) become `Except`/`Option`.
-/

namespace LowerESIMD

/-- Mirrors `ESIMDIntrinDesc::GenXArgConversion` of LowerESIMD.cpp. -/
inductive GenXArgConversion where
  | NONE  -- no conversion
  | TO_I1 -- convert vector of N-bit integer to 1-bit
  | TO_SI -- convert to 32-bit integer surface index
deriving DecidableEq, Repr

/-- Mirrors `ESIMDIntrinDesc::ArgRule` (the `GenXArgRuleKind` tag plus the
union payload, rendered as an inductive).  The payload of each constructor
is the member of the C++ `union Info` that is actually read for that kind
(`CallArgNo`/`Conv` for `SRC_CALL_ARG`, `NRemArgs` for `SRC_CALL_ALL`,
`TmplArgNo` for `SRC_TMPL_ARG`, `ArgConst` for the `CONST_*` kinds). -/
inductive ArgRule where
  | SRC_CALL_ARG (callArgNo : Nat) (conv : GenXArgConversion)
  | SRC_CALL_ALL (nRemArgs : Nat)
  | SRC_TMPL_ARG (tmplArgNo : Nat)
  | NUM_BYTES (callArgNo : Int)
  | UNDEF (callArgNo : Int)
  | CONST_INT16 (argConst : Nat)
  | CONST_INT32 (argConst : Nat)
  | CONST_INT64 (argConst : Nat)
deriving DecidableEq, Repr

/-- Mirrors `ESIMDIntrinDesc::NameRule` (`GenXSuffixRuleKind` plus payload). -/
inductive NameRule where
  | NO_RULE
  | BIN_OP (tmplArgNo : Nat)   -- source template arg num denoting the binary op
  | NUM_KIND (callArgNo : Int) -- source call arg num to get type from, -1 = return
deriving DecidableEq, Repr

/-- Mirrors `struct ESIMDIntrinDesc`. -/
structure ESIMDIntrinDesc where
  GenXSpelling : String
  ArgRules : List ArgRule
  SuffixRule : NameRule := NameRule.NO_RULE
deriving DecidableEq, Repr

/-- Mirrors `ESIMDIntrinDesc::isValid`: `!GenXSpelling.empty()`. -/
def ESIMDIntrinDesc.isValid (d : ESIMDIntrinDesc) : Bool :=
  !(d.GenXSpelling = "")

/-- Mirrors `ESIMDIntrinDesc::getNumGenXArgs`: 0 rules gives 0; a trailing
`SRC_CALL_ALL` rule contributes its stored `NRemArgs` plus the preceding
rule count; otherwise the rule count. -/
def ESIMDIntrinDesc.getNumGenXArgs (d : ESIMDIntrinDesc) : Nat :=
  match d.ArgRules.getLast? with
  | none => 0
  | some (ArgRule.SRC_CALL_ALL n) => n + (d.ArgRules.length - 1)
  | some _ => d.ArgRules.length

/-- Mirrors the macro-generated helper `l` (`SRC_CALL_ALL`). -/
def l (n : Nat) : ArgRule := ArgRule.SRC_CALL_ALL n

/-- Mirrors the macro-generated helper `t` (`SRC_TMPL_ARG`). -/
def t (n : Nat) : ArgRule := ArgRule.SRC_TMPL_ARG n

/-- Mirrors the macro-generated helper `u` (`UNDEF`). -/
def u (n : Int) : ArgRule := ArgRule.UNDEF n

/-- Mirrors the macro-generated helper `nbs` (`NUM_BYTES`). -/
def nbs (n : Int) : ArgRule := ArgRule.NUM_BYTES n

/-- Mirrors helper `a`: source call arg, no conversion. -/
def a (n : Nat) : ArgRule := ArgRule.SRC_CALL_ARG n GenXArgConversion.NONE

/-- Mirrors helper `ai1`: source call arg converted to i1. -/
def ai1 (n : Nat) : ArgRule := ArgRule.SRC_CALL_ARG n GenXArgConversion.TO_I1

/-- Mirrors helper `aSI`: source call arg converted to surface index. -/
def aSI (n : Nat) : ArgRule := ArgRule.SRC_CALL_ARG n GenXArgConversion.TO_SI

/-- Mirrors helper `c16` (`CONST_INT16`). -/
def c16 (n : Nat) : ArgRule := ArgRule.CONST_INT16 n

/-- Mirrors helper `c32` (`CONST_INT32`). -/
def c32 (n : Nat) : ArgRule := ArgRule.CONST_INT32 n

/-- Mirrors helper `c64` (`CONST_INT64`). -/
def c64 (n : Nat) : ArgRule := ArgRule.CONST_INT64 n

/-- Mirrors helper `bo` (`BIN_OP` suffix rule). -/
def bo (n : Nat) : NameRule := NameRule.BIN_OP n

/-- Mirrors helper `nk` (`NUM_KIND` suffix rule). -/
def nk (n : Int) : NameRule := NameRule.NUM_KIND n

/-- Mirrors `SLM_BTI`. -/
def SLM_BTI : Nat := 254

/-- Chunk 1 of the intrinsic rewrite-rule table (split only to keep
elaboration fast; the concatenation below is the table). -/
def ESIMDIntrinDescTableChunk1 : List (String × ESIMDIntrinDesc) := [
  ("rdregion", { GenXSpelling := "rdregion",
                 ArgRules := [a 0, t 3, t 4, t 5, a 1, t 6], SuffixRule := nk (-1) }),
  ("wrregion", { GenXSpelling := "wrregion",
                 ArgRules := [a 0, a 1, t 3, t 4, t 5, a 2, t 6, ai1 3],
                 SuffixRule := nk (-1) }),
  ("vload", { GenXSpelling := "vload", ArgRules := [l 0] }),
  ("vstore", { GenXSpelling := "vstore", ArgRules := [a 1, a 0] }),
  ("flat_block_read_unaligned",
     { GenXSpelling := "svm.block.ld.unaligned", ArgRules := [l 0] }),
  ("flat_block_write", { GenXSpelling := "svm.block.st", ArgRules := [l 1] }),
  ("flat_read", { GenXSpelling := "svm.gather",
                  ArgRules := [ai1 2, a 1, a 0, u (-1)] }),
  ("flat_read4", { GenXSpelling := "svm.gather4.scaled",
                   ArgRules := [ai1 1, t 2, c16 0, c64 0, a 0, u (-1)] }),
  ("flat_write", { GenXSpelling := "svm.scatter",
                   ArgRules := [ai1 3, a 2, a 0, a 1] }),
  ("flat_write4", { GenXSpelling := "svm.scatter4.scaled",
                    ArgRules := [ai1 2, t 2, c16 0, c64 0, a 0, a 1] }),
  ("surf_read", { GenXSpelling := "gather.scaled2",
                  ArgRules := [t 3, c16 0, aSI 1, a 2, a 3] }),
  ("surf_write", { GenXSpelling := "scatter.scaled",
                   ArgRules := [ai1 0, t 3, c16 0, aSI 2, a 3, a 4, a 5] }),
  ("group_id_x", { GenXSpelling := "group.id.x", ArgRules := [] }),
  ("group_id_y", { GenXSpelling := "group.id.y", ArgRules := [] }),
  ("group_id_z", { GenXSpelling := "group.id.z", ArgRules := [] })
]

/-- Chunk 2 of the intrinsic rewrite-rule table (split only to keep
elaboration fast; the concatenation below is the table). -/
def ESIMDIntrinDescTableChunk2 : List (String × ESIMDIntrinDesc) := [
  ("local_id", { GenXSpelling := "local.id", ArgRules := [] }),
  ("local_size", { GenXSpelling := "local.size", ArgRules := [] }),
  ("flat_atomic0", { GenXSpelling := "svm.atomic",
                     ArgRules := [ai1 1, a 0, u (-1)], SuffixRule := bo 0 }),
  ("flat_atomic1", { GenXSpelling := "svm.atomic",
                     ArgRules := [ai1 2, a 0, a 1, u (-1)], SuffixRule := bo 0 }),
  ("flat_atomic2", { GenXSpelling := "svm.atomic",
                     ArgRules := [ai1 3, a 0, a 1, a 2, u (-1)], SuffixRule := bo 0 }),
  ("reduced_fmax", { GenXSpelling := "fmax", ArgRules := [a 0, a 1] }),
  ("reduced_umax", { GenXSpelling := "umax", ArgRules := [a 0, a 1] }),
  ("reduced_smax", { GenXSpelling := "smax", ArgRules := [a 0, a 1] }),
  ("reduced_fmin", { GenXSpelling := "fmin", ArgRules := [a 0, a 1] }),
  ("reduced_umin", { GenXSpelling := "umin", ArgRules := [a 0, a 1] }),
  ("reduced_smin", { GenXSpelling := "smin", ArgRules := [a 0, a 1] }),
  ("dp4", { GenXSpelling := "dp4", ArgRules := [a 0, a 1] }),
  ("media_block_load", { GenXSpelling := "media.ld",
                         ArgRules := [a 0, aSI 1, a 2, a 3, a 4, a 5] }),
  ("media_block_store", { GenXSpelling := "media.st",
                          ArgRules := [a 0, aSI 1, a 2, a 3, a 4, a 5, a 6] }),
  ("slm_fence", { GenXSpelling := "fence", ArgRules := [a 0] })
]

/-- Chunk 3 of the intrinsic rewrite-rule table (split only to keep
elaboration fast; the concatenation below is the table). -/
def ESIMDIntrinDescTableChunk3 : List (String × ESIMDIntrinDesc) := [
  ("barrier", { GenXSpelling := "barrier", ArgRules := [] }),
  ("block_read", { GenXSpelling := "oword.ld.unaligned",
                   ArgRules := [c32 0, aSI 0, a 1] }),
  ("block_write", { GenXSpelling := "oword.st", ArgRules := [aSI 0, a 1, a 2] }),
  ("slm_block_read", { GenXSpelling := "oword.ld.unaligned",
                       ArgRules := [c32 0, c32 SLM_BTI, a 0] }),
  ("slm_block_write", { GenXSpelling := "oword.st",
                        ArgRules := [c32 SLM_BTI, a 0, a 1] }),
  ("slm_read", { GenXSpelling := "gather.scaled",
                 ArgRules := [ai1 1, nbs (-1), c16 0, c32 SLM_BTI, c32 0, a 0, u (-1)] }),
  ("slm_read4", { GenXSpelling := "gather4.scaled",
                  ArgRules := [ai1 1, t 2, c16 0, c32 SLM_BTI, c32 0, a 0, u (-1)] }),
  ("slm_write", { GenXSpelling := "scatter.scaled",
                  ArgRules := [ai1 2, nbs 1, c16 0, c32 SLM_BTI, c32 0, a 0, a 1] }),
  ("slm_write4", { GenXSpelling := "scatter4.scaled",
                   ArgRules := [ai1 2, t 2, c16 0, c32 SLM_BTI, c32 0, a 0, a 1] }),
  ("slm_atomic0", { GenXSpelling := "dword.atomic",
                    ArgRules := [ai1 1, c32 SLM_BTI, a 0, u (-1)], SuffixRule := bo 0 }),
  ("slm_atomic1", { GenXSpelling := "dword.atomic",
                    ArgRules := [ai1 2, c32 SLM_BTI, a 0, a 1, u (-1)], SuffixRule := bo 0 }),
  ("slm_atomic2", { GenXSpelling := "dword.atomic",
                    ArgRules := [ai1 3, c32 SLM_BTI, a 0, a 1, a 2, u (-1)],
                    SuffixRule := bo 0 }),
  ("raw_sends_load", { GenXSpelling := "raw.sends2",
                       ArgRules := [a 0, a 1, ai1 2, a 3, a 4, a 5, a 6, a 7, a 8,
                                    a 9, a 10, a 11] }),
  ("raw_send_load", { GenXSpelling := "raw.send2",
                      ArgRules := [a 0, a 1, ai1 2, a 3, a 4, a 5, a 6, a 7, a 8, a 9] }),
  ("raw_sends_store", { GenXSpelling := "raw.sends2.noresult",
                        ArgRules := [a 0, a 1, ai1 2, a 3, a 4, a 5, a 6, a 7, a 8, a 9] })
]

/-- Chunk 4 of the intrinsic rewrite-rule table (split only to keep
elaboration fast; the concatenation below is the table). -/
def ESIMDIntrinDescTableChunk4 : List (String × ESIMDIntrinDesc) := [
  ("raw_send_store", { GenXSpelling := "raw.send2.noresult",
                       ArgRules := [a 0, a 1, ai1 2, a 3, a 4, a 5, a 6, a 7] }),
  ("satf", { GenXSpelling := "sat", ArgRules := [a 0] }),
  ("fptoui_sat", { GenXSpelling := "fptoui.sat", ArgRules := [a 0] }),
  ("fptosi_sat", { GenXSpelling := "fptosi.sat", ArgRules := [a 0] }),
  ("uutrunc_sat", { GenXSpelling := "uutrunc.sat", ArgRules := [a 0] }),
  ("ustrunc_sat", { GenXSpelling := "ustrunc.sat", ArgRules := [a 0] }),
  ("sutrunc_sat", { GenXSpelling := "sutrunc.sat", ArgRules := [a 0] }),
  ("sstrunc_sat", { GenXSpelling := "sstrunc.sat", ArgRules := [a 0] }),
  ("abs", { GenXSpelling := "abs", ArgRules := [a 0], SuffixRule := nk (-1) }),
  ("ssshl", { GenXSpelling := "ssshl", ArgRules := [a 0, a 1] }),
  ("sushl", { GenXSpelling := "sushl", ArgRules := [a 0, a 1] }),
  ("usshl", { GenXSpelling := "usshl", ArgRules := [a 0, a 1] }),
  ("uushl", { GenXSpelling := "uushl", ArgRules := [a 0, a 1] }),
  ("ssshl_sat", { GenXSpelling := "ssshl.sat", ArgRules := [a 0, a 1] }),
  ("sushl_sat", { GenXSpelling := "sushl.sat", ArgRules := [a 0, a 1] })
]

/-- Chunk 5 of the intrinsic rewrite-rule table (split only to keep
elaboration fast; the concatenation below is the table). -/
def ESIMDIntrinDescTableChunk5 : List (String × ESIMDIntrinDesc) := [
  ("usshl_sat", { GenXSpelling := "usshl.sat", ArgRules := [a 0, a 1] }),
  ("uushl_sat", { GenXSpelling := "uushl.sat", ArgRules := [a 0, a 1] }),
  ("rol", { GenXSpelling := "rol", ArgRules := [a 0, a 1] }),
  ("ror", { GenXSpelling := "ror", ArgRules := [a 0, a 1] }),
  ("umulh", { GenXSpelling := "umulh", ArgRules := [a 0, a 1] }),
  ("smulh", { GenXSpelling := "smulh", ArgRules := [a 0, a 1] }),
  ("frc", { GenXSpelling := "frc", ArgRules := [a 0] }),
  ("fmax", { GenXSpelling := "fmax", ArgRules := [a 0, a 1] }),
  ("umax", { GenXSpelling := "umax", ArgRules := [a 0, a 1] }),
  ("smax", { GenXSpelling := "smax", ArgRules := [a 0, a 1] }),
  ("lzd", { GenXSpelling := "lzd", ArgRules := [a 0] }),
  ("fmin", { GenXSpelling := "fmin", ArgRules := [a 0, a 1] }),
  ("umin", { GenXSpelling := "umin", ArgRules := [a 0, a 1] }),
  ("smin", { GenXSpelling := "smin", ArgRules := [a 0, a 1] }),
  ("bfrev", { GenXSpelling := "bfrev", ArgRules := [a 0] })
]

/-- Chunk 6 of the intrinsic rewrite-rule table (split only to keep
elaboration fast; the concatenation below is the table). -/
def ESIMDIntrinDescTableChunk6 : List (String × ESIMDIntrinDesc) := [
  ("cbit", { GenXSpelling := "cbit", ArgRules := [a 0] }),
  ("bfins", { GenXSpelling := "bfi", ArgRules := [a 0, a 1, a 2, a 3] }),
  ("bfext", { GenXSpelling := "sbfe", ArgRules := [a 0, a 1, a 2] }),
  ("fbl", { GenXSpelling := "fbl", ArgRules := [a 0] }),
  ("sfbh", { GenXSpelling := "sfbh", ArgRules := [a 0] }),
  ("ufbh", { GenXSpelling := "ufbh", ArgRules := [a 0] }),
  ("inv", { GenXSpelling := "inv", ArgRules := [a 0] }),
  ("log", { GenXSpelling := "log", ArgRules := [a 0] }),
  ("exp", { GenXSpelling := "exp", ArgRules := [a 0] }),
  ("sqrt", { GenXSpelling := "sqrt", ArgRules := [a 0] }),
  ("sqrt_ieee", { GenXSpelling := "ieee.sqrt", ArgRules := [a 0] }),
  ("rsqrt", { GenXSpelling := "rsqrt", ArgRules := [a 0] }),
  ("sin", { GenXSpelling := "sin", ArgRules := [a 0] }),
  ("cos", { GenXSpelling := "cos", ArgRules := [a 0] }),
  ("pow", { GenXSpelling := "pow", ArgRules := [a 0, a 1] })
]

/-- Chunk 7 of the intrinsic rewrite-rule table (split only to keep
elaboration fast; the concatenation below is the table). -/
def ESIMDIntrinDescTableChunk7 : List (String × ESIMDIntrinDesc) := [
  ("div_ieee", { GenXSpelling := "ieee.div", ArgRules := [a 0, a 1] }),
  ("dp4a", { GenXSpelling := "dp4a", ArgRules := [a 0, a 1, a 2] }),
  ("any", { GenXSpelling := "any", ArgRules := [ai1 0] }),
  ("all", { GenXSpelling := "all", ArgRules := [ai1 0] })
]

/-- The intrinsic rewrite-rule table of `ESIMDIntrinDescTable`, as an
association list (the C++ `std::unordered_map` has unique keys; lookup
order is irrelevant because keys are distinct). -/
def ESIMDIntrinDescTableEntries : List (String × ESIMDIntrinDesc) :=
  ESIMDIntrinDescTableChunk1 ++ ESIMDIntrinDescTableChunk2 ++ ESIMDIntrinDescTableChunk3 ++ ESIMDIntrinDescTableChunk4 ++ ESIMDIntrinDescTableChunk5 ++ ESIMDIntrinDescTableChunk6 ++ ESIMDIntrinDescTableChunk7

/-- Table lookup (`Table.find(SrcSpelling.str())`). -/
def lookupIntrinTable (srcSpelling : String) : Option ESIMDIntrinDesc :=
  (ESIMDIntrinDescTableEntries.lookup srcSpelling)

/-- Mirrors `getIntrinDesc`: a missing table entry is
`llvm::report_fatal_error("unknown ESIMD intrinsic: " + SrcSpelling)`,
modelled as `Except.error`; a present entry is returned. -/
def getIntrinDesc (srcSpelling : String) : Except String ESIMDIntrinDesc :=
  match lookupIntrinTable srcSpelling with
  | none => Except.error ("unknown ESIMD intrinsic: " ++ srcSpelling)
  | some d => Except.ok d

/-- Possible outcomes of `translateESIMDIntrinsicCall` for a call whose
demangled base name (after the `__esimd_` stem) is given. -/
inductive TranslateOutcome where
  | fatalError  -- report_fatal_error aborts compilation
  | skipped     -- `if (!Desc.isValid()) return;` leaves the call unchanged
  | translated  -- the call is rewritten into a GenX intrinsic call
deriving DecidableEq, Repr

/-- Mirrors the rule-table consultation in `translateESIMDIntrinsicCall`
(after successful demangling): `getIntrinDesc(BaseName)` aborts on a
missing entry; otherwise the `isValid()` test decides skip vs. translate. -/
def translateESIMDIntrinsicOutcome (baseName : String) : TranslateOutcome :=
  match getIntrinDesc baseName with
  | Except.error _ => TranslateOutcome.fatalError
  | Except.ok desc =>
      if desc.isValid then TranslateOutcome.translated else TranslateOutcome.skipped

/-- One step of the argument-materialization loop of
`createESIMDIntrinsicArgs`: state is `(LastCppArgNo, number of values
pushed onto GenXArgs so far)`; `numArgOperands` is
`CI.getNumArgOperands()`.  A `SRC_CALL_ARG` rule pushes one value and
updates `LastCppArgNo`; `SRC_CALL_ALL` pushes one value per source operand
from `LastCppArgNo` to the last; every other kind pushes exactly one. -/
def createESIMDIntrinsicArgsStep (numArgOperands : Nat) (st : Nat × Nat)
    (rule : ArgRule) : Nat × Nat :=
  match rule with
  | ArgRule.SRC_CALL_ARG n _ => (n, st.2 + 1)
  | ArgRule.SRC_CALL_ALL _ => (st.1, st.2 + (numArgOperands - st.1))
  | _ => (st.1, st.2 + 1)

/-- Number of target-call arguments materialized by
`createESIMDIntrinsicArgs` for the given rule list against a source call
with `numArgOperands` operands. -/
def createESIMDIntrinsicArgsCount (rules : List ArgRule) (numArgOperands : Nat) : Nat :=
  (rules.foldl (createESIMDIntrinsicArgsStep numArgOperands) (0, 0)).2

/-- Mirrors the `BIN_OP` branch of `getESIMDIntrinSuffix`: the switch on
the opcode template argument.  The `default: llvm_unreachable("unknown
atomic OP")` arm is modelled as `none`. -/
def getESIMDBinOpSuffix (opId : Int) : Option String :=
  if opId = 0x0 then some ".add"
  else if opId = 0x1 then some ".sub"
  else if opId = 0x2 then some ".inc"
  else if opId = 0x3 then some ".dec"
  else if opId = 0x4 then some ".min"
  else if opId = 0x5 then some ".max"
  else if opId = 0x6 then some ".xchg"
  else if opId = 0x7 then some ".cmpxchg"
  else if opId = 0x8 then some ".and"
  else if opId = 0x9 then some ".or"
  else if opId = 0xa then some ".xor"
  else if opId = 0xb then some ".minsint"
  else if opId = 0xc then some ".maxsint"
  else if opId = 0x10 then some ".fmax"
  else if opId = 0x11 then some ".fmin"
  else if opId = 0x12 then some ".fcmpwr"
  else if opId = 0xff then some ".predec"
  else none

/-- The opcode values accepted by the `BIN_OP` switch, paired with the
suffix each one produces. -/
def binOpSuffixPairs : List (Int × String) :=
  [(0x0, ".add"), (0x1, ".sub"), (0x2, ".inc"), (0x3, ".dec"), (0x4, ".min"),
   (0x5, ".max"), (0x6, ".xchg"), (0x7, ".cmpxchg"), (0x8, ".and"), (0x9, ".or"),
   (0xa, ".xor"), (0xb, ".minsint"), (0xc, ".maxsint"), (0x10, ".fmax"),
   (0x11, ".fmin"), (0x12, ".fcmpwr"), (0xff, ".predec")]

/-- Executable mirror of `StringRef::startswith`/`consume_front`'s prefix
test, computed on the character list so that kernel reduction (and hence
`decide`) can evaluate it. -/
def strStartsWith (s pre : String) : Bool :=
  pre.data.isPrefixOf s.data

/-- Executable mirror of dropping the first `n` characters of a string
(`StringRef::drop_front` / `substr`), computed on the character list. -/
def strDrop (s : String) (n : Nat) : String :=
  String.mk (s.data.drop n)

/-- Executable mirror of taking the first `n` characters of a string,
computed on the character list. -/
def strTake (s : String) (n : Nat) : String :=
  String.mk (s.data.take n)

/-- Executable mirror of `Name.drop_while([](char C) { return
std::isdigit(C); })`, computed on the character list. -/
def strDropDigits (s : String) : String :=
  String.mk (s.data.dropWhile Char.isDigit)

/-- Values produced while translating a `__spirv_*` query intrinsic.  The
translation emits GenX intrinsic calls, element extractions and integer
arithmetic; the trailing `addCastInstIfNeeded` widening cast is identity
at this level of abstraction and is not represented. -/
inductive SpirvValue where
  | vecExtract (genxIntrinName : String) (extractIndex : Int)
      -- `generateVectorGenXForSpirv`: call llvm.genx.<name>, extract lane
  | scalarCall (genxIntrinName : String)
      -- `generateGenXForSpirv`: call llvm.genx.<name> directly
  | mul (lhs rhs : SpirvValue)
  | add (lhs rhs : SpirvValue)
  | nullConst
      -- `llvm::Constant::getNullValue` (the GlobalOffset placeholder)
deriving DecidableEq, Repr

/-- Mirrors `getIndexForSuffix` (StringSwitch on "x"/"y"/"z", default -1). -/
def getIndexForSuffix (suff : String) : Int :=
  if suff = "x" then 0
  else if suff = "y" then 1
  else if suff = "z" then 2
  else -1

/-- Mirrors `generateVectorGenXForSpirv` (sans IR plumbing): the emitted
value is an extract of lane `getIndexForSuffix Suff` from a call of the
vector GenX intrinsic. -/
def generateVectorGenXForSpirv (suff : String) (intrinName : String) : SpirvValue :=
  SpirvValue.vecExtract intrinName (getIndexForSuffix suff)

/-- Mirrors `generateGenXForSpirv`: a direct call of the GenX intrinsic
whose name is `IntrinName + Suff`. -/
def generateGenXForSpirv (suff : String) (intrinName : String) : SpirvValue :=
  SpirvValue.scalarCall (intrinName ++ suff)

/-- Mirrors `SpirvIntrName.substr(1, 1)`: the one-character dimension
suffix that follows the underscore once the intrinsic stem is consumed. -/
def spirvDimSuffix (rest : String) : String :=
  strTake (strDrop rest 1) 1

/-- Mirrors `translateSpirvIntrinsic`: `SpirvIntrName` is the callee name
with `_Z<digits>__spirv_` already removed.  The `translateSpirvIntr`
lambdas run in source order and `consume_front` mutates the name, so the
first stem that is a prefix of the name wins; an unmatched name is left
untranslated (`none`). -/
def translateSpirvIntrinsic (spirvIntrName : String) : Option SpirvValue :=
  if strStartsWith spirvIntrName "WorkgroupSize" then
    some (generateVectorGenXForSpirv
      (spirvDimSuffix (strDrop spirvIntrName "WorkgroupSize".length)) "local.size.v3i32")
  else if strStartsWith spirvIntrName "LocalInvocationId" then
    some (generateVectorGenXForSpirv
      (spirvDimSuffix (strDrop spirvIntrName "LocalInvocationId".length)) "local.id.v3i32")
  else if strStartsWith spirvIntrName "WorkgroupId" then
    some (generateGenXForSpirv
      (spirvDimSuffix (strDrop spirvIntrName "WorkgroupId".length)) "group.id.")
  else if strStartsWith spirvIntrName "GlobalInvocationId" then
    -- GlobalId = LocalId + WorkGroupSize * GroupId
    let suff := spirvDimSuffix (strDrop spirvIntrName "GlobalInvocationId".length)
    let localIdI := generateVectorGenXForSpirv suff "local.id.v3i32"
    let wgSizeI := generateVectorGenXForSpirv suff "local.size.v3i32"
    let groupIdI := generateGenXForSpirv suff "group.id."
    some (SpirvValue.add localIdI (SpirvValue.mul wgSizeI groupIdI))
  else if strStartsWith spirvIntrName "GlobalSize" then
    -- GlobalSize = WorkGroupSize * NumWorkGroups
    let suff := spirvDimSuffix (strDrop spirvIntrName "GlobalSize".length)
    let wgSizeI := generateVectorGenXForSpirv suff "local.size.v3i32"
    let numWGI := generateVectorGenXForSpirv suff "group.count.v3i32"
    some (SpirvValue.mul wgSizeI numWGI)
  else if strStartsWith spirvIntrName "GlobalOffset" then
    some SpirvValue.nullConst
  else if strStartsWith spirvIntrName "NumWorkgroups" then
    some (generateVectorGenXForSpirv
      (spirvDimSuffix (strDrop spirvIntrName "NumWorkgroups".length)) "group.count.v3i32")
  else
    none

/-- Mirrors `llvm::PreservedAnalyses` at the only granularity the pass
uses: `PreservedAnalyses::all()` vs `PreservedAnalyses::none()`. -/
inductive MPreservedAnalyses where
  | all
  | nonePreserved
deriving DecidableEq, Repr

/-- A function-body instruction at the granularity the pass inspects:
either a direct call (identified by the callee name) or any other
instruction.  (The FP-to-integer cast canonicalization of the pass
operates on cast instructions, whose operand types are below this
abstraction; no verified property depends on it, so `other` instructions
pass through unchanged.) -/
inductive MInstr where
  | call (calleeName : String)
  | other
deriving DecidableEq, Repr

/-- A function as the pass sees it: the `!sycl_explicit_simd` metadata
marker and the instruction stream. -/
structure MFunction where
  hasExplicitSimdMD : Bool  -- F.getMetadata("sycl_explicit_simd") != nullptr
  instructions : List MInstr
deriving DecidableEq, Repr

/-- How the instruction-scanning loop of `SYCLLowerESIMDPass::run`
disposes of one call instruction. -/
inductive CallDisposition where
  | untouched          -- the loop `continue`s without recording the call
  | erasedSpecial      -- special-cased builtins translated in place, then erased
  | esimdIntrinsicCall -- recorded in ESIMDIntrCalls for table-driven translation
deriving DecidableEq, Repr

/-- Mirrors the callee-name classification of the scanning loop in
`SYCLLowerESIMDPass::run` (consume `_Z`, drop digits, then the chain of
name tests).  `vloadTranslatable`/`vstoreTranslatable` stand for the
respective `translateVLoad`/`translateVStore` results, which depend on
whether the operand type occurs in the genx-volatile type set. -/
def classifyCallName (vloadTranslatable vstoreTranslatable : Bool)
    (calleeName : String) : CallDisposition :=
  if !(strStartsWith calleeName "_Z") then CallDisposition.untouched
  else
    let name := strDropDigits (strDrop calleeName 2)
    if strStartsWith name "N2cl4sycl5INTEL3gpu8slm_init" then CallDisposition.erasedSpecial
    else if strStartsWith name "__esimd_pack_mask" then CallDisposition.erasedSpecial
    else if strStartsWith name "__esimd_unpack_mask" then CallDisposition.erasedSpecial
    else if strStartsWith name "__esimd_vload" && vloadTranslatable then
      CallDisposition.erasedSpecial
    else if strStartsWith name "__esimd_vstore" && vstoreTranslatable then
      CallDisposition.erasedSpecial
    else if strStartsWith name "__esimd_get_value" then CallDisposition.erasedSpecial
    else if strStartsWith name "__spirv_" then
      match translateSpirvIntrinsic (strDrop name "__spirv_".length) with
      | some _ => CallDisposition.erasedSpecial
      | none => CallDisposition.untouched
    else if name = "" || !(strStartsWith name "__esimd_") then CallDisposition.untouched
    else CallDisposition.esimdIntrinsicCall

/-- The body transformation performed by `SYCLLowerESIMDPass::run` once
the function carries the marker metadata: special-cased calls are
translated and erased, table-driven ESIMD intrinsic calls are replaced by
their GenX translations (represented here by tagging the call), and all
other instructions stay. -/
def lowerInstructions (vl vs : Bool) (instrs : List MInstr) : List MInstr :=
  instrs.filterMap (fun i =>
    match i with
    | MInstr.other => some MInstr.other
    | MInstr.call nm =>
        match classifyCallName vl vs nm with
        | CallDisposition.untouched => some (MInstr.call nm)
        | CallDisposition.erasedSpecial => none
        | CallDisposition.esimdIntrinsicCall =>
            some (MInstr.call ("llvm.genx.translated:" ++ nm)))

/-- Whether the scan records at least one table-driven ESIMD intrinsic
call (`ESIMDIntrCalls.size() > 0`). -/
def hasESIMDIntrCalls (vl vs : Bool) (instrs : List MInstr) : Bool :=
  instrs.any (fun i =>
    match i with
    | MInstr.call nm =>
        classifyCallName vl vs nm = CallDisposition.esimdIntrinsicCall
    | MInstr.other => false)

/-- Mirrors `SYCLLowerESIMDPass::run`: a function without the
`!sycl_explicit_simd` metadata is returned untouched with all analyses
preserved; otherwise the body is lowered and the pass reports
`PreservedAnalyses::none()` exactly when ESIMD intrinsic calls were
translated. -/
def SYCLLowerESIMDPassRun (vl vs : Bool) (F : MFunction) :
    MPreservedAnalyses × MFunction :=
  if F.hasExplicitSimdMD = false then (MPreservedAnalyses.all, F)
  else
    let newInstrs := lowerInstructions vl vs F.instructions
    (if hasESIMDIntrCalls vl vs F.instructions then MPreservedAnalyses.nonePreserved
     else MPreservedAnalyses.all,
     { F with instructions := newInstrs })

end LowerESIMD


namespace SemaSYCL

/-!
Shallow embedding of the SYCL kernel-object field walk of SemaSYCL.cpp
(`KernelObjVisitor`) as seen by the individual `SyclKernelFieldHandler`
implementations.  Each handler is modelled over a tree describing the
shape of the kernel object.
-/

/-- Kernel-object shape as visited by `SyclKernelUnionChecker`: resource
fields (accessor/sampler/stream, all of which funnel into `checkType`),
other leaf fields, unions (whose bodies the checker visits, because it
sets `VisitUnionBody = true`) and decomposed records.  Record bases and
fields are both listed as members because the checker treats them
identically (both overloads of each `handleSycl*Type` call `checkType`). -/
inductive UField where
  | resourceF
  | otherF
  | unionF (members : List UField)
  | structF (members : List UField)
deriving Repr

mutual

/-- Mirrors the error-reporting part of the `SyclKernelUnionChecker` walk:
given the current `UnionCount`, returns `true` iff visiting the field
reports `err_bad_union_kernel_param_members` (i.e. sets `IsInvalid`).
`resourceF` is `checkType`: it reports exactly when `UnionCount` is
nonzero; `enterUnion`/`leaveUnion` adjust the count around a union body. -/
def unionCheckerReportsField (unionCount : Nat) : UField → Bool
  | UField.resourceF => decide (0 < unionCount)
  | UField.otherF => false
  | UField.unionF members => unionCheckerReportsList (unionCount + 1) members
  | UField.structF members => unionCheckerReportsList unionCount members

/-- List version of `unionCheckerReportsField` (the visitor walks members
in order; `IsInvalid` latches, so the walk reports iff some member does). -/
def unionCheckerReportsList (unionCount : Nat) : List UField → Bool
  | [] => false
  | f :: fs =>
      unionCheckerReportsField unionCount f || unionCheckerReportsList unionCount fs

end

/-- Mirrors `SyclKernelUnionChecker::isValid()` after walking the kernel
object's fields (the walk starts outside any union: `UnionCount = 0`). -/
def unionCheckerIsValid (kernelObjFields : List UField) : Bool :=
  !(unionCheckerReportsList 0 kernelObjFields)

mutual

/-- Spec-side characterization for comparison with the checker walk: does
a resource-type field occur anywhere (at any nesting depth) inside a
union?  `inUnion` records whether an enclosing union has been entered. -/
def hasResourceInsideUnionField (inUnion : Bool) : UField → Bool
  | UField.resourceF => inUnion
  | UField.otherF => false
  | UField.unionF members => hasResourceInsideUnionList true members
  | UField.structF members => hasResourceInsideUnionList inUnion members

/-- List version of `hasResourceInsideUnionField`. -/
def hasResourceInsideUnionList (inUnion : Bool) : List UField → Bool
  | [] => false
  | f :: fs =>
      hasResourceInsideUnionField inUnion f || hasResourceInsideUnionList inUnion fs

end

/-- Kernel-object shape as visited by `SyclKernelIntHeaderCreator` (which
opts out of visiting inside simple containers).  Leaves carry no layout
data of their own: the byte offset of every member relative to its parent
is recorded on the edge (`(offset, type)` pairs for record bases and
fields).  `decomp` is the `SYCLRequiresDecompositionAttr` dispatch flag of
`KernelObjVisitor::visitRecord`/`visitArray`. -/
inductive HTy where
  | leaf
  | record (bases : List (Int × HTy)) (fields : List (Int × HTy)) (decomp : Bool)
  | array (elemSize : Int) (count : Nat) (elem : HTy) (decomp : Bool)
deriving Repr

/-- State of `SyclKernelIntHeaderCreator` during the walk: the running
byte offset, the `ArrayBaseOffsets` stack, and the offsets recorded into
the integration header by `addParamDesc` (only offsets are modelled). -/
structure IHState where
  CurOffset : Int
  ArrayBaseOffsets : List Int
  ParamOffsets : List Int
deriving DecidableEq, Repr

/-- Mirrors `SyclKernelIntHeaderCreator::addParam`: records
`CurOffset + OffsetAdj`. -/
def ihAddParam (S : IHState) (offsetAdj : Int) : IHState :=
  { S with ParamOffsets := S.ParamOffsets ++ [S.CurOffset + offsetAdj] }

/-- Mirrors `enterStruct` (field and base-specifier overloads):
`CurOffset += offsetOf(...)`. -/
def ihEnterStruct (S : IHState) (off : Int) : IHState :=
  { S with CurOffset := S.CurOffset + off }

/-- Mirrors `leaveStruct`: `CurOffset -= offsetOf(...)`. -/
def ihLeaveStruct (S : IHState) (off : Int) : IHState :=
  { S with CurOffset := S.CurOffset - off }

/-- Mirrors `enterArray`: `ArrayBaseOffsets.push_back(CurOffset +
offsetOf(FD, ArrayTy))`. -/
def ihEnterArray (S : IHState) (off : Int) : IHState :=
  { S with ArrayBaseOffsets := S.ArrayBaseOffsets ++ [S.CurOffset + off] }

/-- Mirrors `nextElement`: `CurOffset = ArrayBaseOffsets.back() + Size *
Index`. -/
def ihNextElement (S : IHState) (size : Int) (index : Nat) : IHState :=
  { S with CurOffset := (S.ArrayBaseOffsets.getLast?.getD 0) + size * index }

/-- Mirrors `leaveArray`: `CurOffset = ArrayBaseOffsets.pop_back_val();
CurOffset -= offsetOf(FD, ArrayTy)`. -/
def ihLeaveArray (S : IHState) (off : Int) : IHState :=
  { S with CurOffset := (S.ArrayBaseOffsets.getLast?.getD 0) - off,
           ArrayBaseOffsets := S.ArrayBaseOffsets.dropLast }

mutual

/-- The `KernelObjVisitor` walk as observed by `SyclKernelIntHeaderCreator`.
`link` is `offsetOf` of the edge along which the type was reached: the
field or base-class byte offset, and `0` for an array element (for
elements `isArrayElement` holds, so `offsetOf(FD, ArgTy)` returns 0).
Leaves and non-decomposed containers produce one parameter descriptor;
decomposed records recurse through bases then fields; decomposed arrays
visit every element (`VisitNthArrayElement` defaults to `true` for this
handler) bracketed by `enterArray`/`leaveArray` with `nextElement` before
each element. -/
def ihWalkTy (S : IHState) (link : Int) : HTy → IHState
  | HTy.leaf => ihAddParam S link
  | HTy.record bases fields true =>
      let S1 := ihEnterStruct S link
      let S2 := ihWalkEdges S1 bases
      let S3 := ihWalkEdges S2 fields
      ihLeaveStruct S3 link
  | HTy.record _ _ false => ihAddParam S link
  | HTy.array elemSize count elem true =>
      let S1 := ihEnterArray S link
      let S2 := ihWalkElems S1 elemSize elem count
      ihLeaveArray S2 link
  | HTy.array _ _ _ false => ihAddParam S link

/-- Walk of a list of record members (bases or fields), each reached
through its `(offset, type)` edge. -/
def ihWalkEdges (S : IHState) : List (Int × HTy) → IHState
  | [] => S
  | (off, t) :: rest => ihWalkEdges (ihWalkTy S off t) rest

/-- Walk of the first `n` array elements (`visitFirstArrayElement` /
`visitNthArrayElement`): `nextElement` then the element visit, per index. -/
def ihWalkElems (S : IHState) (elemSize : Int) (elem : HTy) : Nat → IHState
  | 0 => S
  | Nat.succ k =>
      let S1 := ihWalkElems S elemSize elem k
      let S2 := ihNextElement S1 elemSize k
      ihWalkTy S2 0 elem

end

mutual

/-- Compositional offset semantics, written from the specification's
wording: a leaf (or non-decomposed container) reached at absolute offset
`cur` through an edge of offset `link` contributes `cur + link`; a
decomposed record shifts all bases and fields by `cur + link` (so fields
originating from a base class additionally include the base-class
offset); element `i` of a decomposed array is laid out at the array's
base offset plus `i * elemSize`. -/
def paramOffsetsSpec (cur : Int) (link : Int) : HTy → List Int
  | HTy.leaf => [cur + link]
  | HTy.record bases fields true =>
      paramOffsetsSpecEdges (cur + link) bases ++ paramOffsetsSpecEdges (cur + link) fields
  | HTy.record _ _ false => [cur + link]
  | HTy.array elemSize count elem true =>
      paramOffsetsSpecElems (cur + link) elemSize elem count
  | HTy.array _ _ _ false => [cur + link]

/-- Member-list version of `paramOffsetsSpec`. -/
def paramOffsetsSpecEdges (cur : Int) : List (Int × HTy) → List Int
  | [] => []
  | (off, t) :: rest => paramOffsetsSpec cur off t ++ paramOffsetsSpecEdges cur rest

/-- Element version of `paramOffsetsSpec`: element `k` sits at
`base + elemSize * k`. -/
def paramOffsetsSpecElems (base : Int) (elemSize : Int) (elem : HTy) : Nat → List Int
  | 0 => []
  | Nat.succ k =>
      paramOffsetsSpecElems base elemSize elem k ++ paramOffsetsSpec (base + elemSize * k) 0 elem

end

/-- The claimed example: a kernel object with three 4-byte scalar fields
at byte offsets 0, 8 and 16, plus a decomposed 4-element array of a
4-byte scalar at offset 20. -/
def exampleKernelObj : HTy :=
  HTy.record []
    [(0, HTy.leaf), (8, HTy.leaf), (16, HTy.leaf),
     (20, HTy.array 4 4 HTy.leaf true)] true

/-- Initial `SyclKernelIntHeaderCreator` state: `CurOffset = 0`, no array
bases pushed, no parameters recorded. -/
def ihInitState : IHState := { CurOffset := 0, ArrayBaseOffsets := [], ParamOffsets := [] }

/-- Kernel-object shape as visited by `SyclKernelBodyCreator`: leaves
(scalars, pointers, unions, non-decomposed containers and simple arrays,
none of which touch `CollectionInitExprs`), streams, decomposed records
(bases and fields) and decomposed arrays. -/
inductive BTy where
  | leafB
  | streamB
  | structB (bases : List BTy) (fields : List BTy)
  | arrayB (elem : BTy) (count : Nat)
deriving Repr

/-- One entry of the modelled `CollectionInitExprs` stack, tagged with the
construct whose enter pushed it. -/
inductive InitEntry where
  | topE     -- pushed by the SyclKernelBodyCreator constructor
  | streamE  -- pushed by enterStream
  | structE  -- pushed by enterStruct (addCollectionInitListExpr)
  | arrayE   -- pushed by enterArray (addCollectionInitListExpr)
deriving DecidableEq, Repr

mutual

/-- The `CollectionInitExprs` stack traffic of the `SyclKernelBodyCreator`
walk: `enterStream`/`enterStruct`/`enterArray` push one entry
(`push_back`; the vector's back is the stack top), the matching
`leaveStream`/`leaveStruct`/`leaveArray` pop one (`pop_back`); every
other handler leaves the stack alone. -/
def bodyWalkTy (stk : List InitEntry) : BTy → List InitEntry
  | BTy.leafB => stk
  | BTy.streamB => (stk ++ [InitEntry.streamE]).dropLast
  | BTy.structB bases fields =>
      (bodyWalkList (bodyWalkList (stk ++ [InitEntry.structE]) bases) fields).dropLast
  | BTy.arrayB elem count =>
      (bodyWalkElems (stk ++ [InitEntry.arrayE]) elem count).dropLast

/-- Member-list version of `bodyWalkTy`. -/
def bodyWalkList (stk : List InitEntry) : List BTy → List InitEntry
  | [] => stk
  | t :: rest => bodyWalkList (bodyWalkTy stk t) rest

/-- Element version of `bodyWalkTy` (`nextElement` does not touch
`CollectionInitExprs`, so an element visit is just the element walk). -/
def bodyWalkElems (stk : List InitEntry) (elem : BTy) : Nat → List InitEntry
  | 0 => stk
  | Nat.succ k => bodyWalkTy (bodyWalkElems stk elem k) elem

end

/-- The full `SyclKernelBodyCreator` run over a kernel object's fields:
the constructor pushes the top-level object initializer
(`CollectionInitExprs.push_back(createInitListExpr(KernelObj))`), then the
visitor walks all fields. -/
def bodyCreatorFinalStack (kernelObjFields : List BTy) : List InitEntry :=
  bodyWalkList [InitEntry.topE] kernelObjFields

/-- Clang address spaces distinguished by
`SyclKernelDeclCreator::handlePointerType`. -/
inductive AddrSpace where
  | defaultAS
  | openclGlobal
  | openclGlobalDevice
  | openclGlobalHost
  | otherAS
deriving DecidableEq, Repr

/-- Mirrors the address-space adjustment in `handlePointerType`: leave
`global_device`/`global_host` as is, set everything else to
`opencl_global`. -/
def adjustPointerAS (AS : AddrSpace) : AddrSpace :=
  if AS = AddrSpace.openclGlobalDevice || AS = AddrSpace.openclGlobalHost then AS
  else AddrSpace.openclGlobal

/-- Kernel parameter types produced by `SyclKernelDeclCreator` at the
granularity this claim needs: a raw pointer parameter (with its pointee
address space), the synthetic `__wrapper_class` record, or some by-value
parameter. -/
inductive MParamTy where
  | rawPtr (pointeeAS : AddrSpace)
  | wrapperStruct (wrapped : MParamTy)
  | byValue
deriving DecidableEq, Repr

/-- Mirrors `SyclKernelDeclCreator::handlePointerType`: the pointee's
address space is adjusted, and when `StructDepth` is nonzero the pointer
is wrapped via `wrapField` into the one-field `__wrapper_class`. -/
def declHandlePointerType (structDepth : Nat) (pointeeAS : AddrSpace) : MParamTy :=
  let modTy := MParamTy.rawPtr (adjustPointerAS pointeeAS)
  if structDepth ≠ 0 then MParamTy.wrapperStruct modTy else modTy

/-- Kernel-object shape as visited by `SyclKernelDeclCreator` (which opts
out of visiting inside simple containers): scalar-like leaves, pointer
fields, simple (non-decomposed) arrays, and decomposed records.  Streams
are walked like decomposed records (`enterStream` delegates to
`enterStruct`), so they are represented by `structD` as well. -/
inductive DField where
  | scalarD
  | pointerD (pointeeAS : AddrSpace)
  | simpleArrayD
  | structD (members : List DField)
deriving Repr

mutual

/-- Parameters added while `SyclKernelDeclCreator` visits one field at the
given `StructDepth`: scalars and non-decomposed containers add a by-value
parameter, pointers go through `handlePointerType`, simple arrays are
wrapped unconditionally (`handleSimpleArrayType`), and decomposed records
bump `StructDepth` around their members (`enterStruct`/`leaveStruct`). -/
def declWalkField (structDepth : Nat) : DField → List MParamTy
  | DField.scalarD => [MParamTy.byValue]
  | DField.pointerD pointeeAS => [declHandlePointerType structDepth pointeeAS]
  | DField.simpleArrayD => [MParamTy.wrapperStruct MParamTy.byValue]
  | DField.structD members => declWalkFields (structDepth + 1) members

/-- List version of `declWalkField`. -/
def declWalkFields (structDepth : Nat) : List DField → List MParamTy
  | [] => []
  | f :: fs => declWalkField structDepth f ++ declWalkFields structDepth fs

end

/-- Is the parameter a raw (unwrapped) pointer parameter? -/
def MParamTy.isRawPtr : MParamTy → Bool
  | MParamTy.rawPtr _ => true
  | _ => false

/-- A work-group size attribute value (`XDim`, `YDim`, `ZDim`). -/
structure WGSize where
  x : Nat
  y : Nat
  z : Nat
deriving DecidableEq, Repr

/-- The kernel state that `Sema::MarkDevice` reads and updates while
propagating a collected work-group-size attribute: the attributes already
on the kernel entry, whether `setInvalidDecl()` ran, and whether
`err_conflicting_sycl_kernel_attributes` was emitted. -/
structure KernelAttrState where
  reqdWorkGroupSize : Option WGSize
  maxWorkGroupSize : Option WGSize
  invalidDecl : Bool
  conflictDiagnosed : Bool
deriving DecidableEq, Repr

/-- Mirrors the `attr::Kind::ReqdWorkGroupSize` case of `Sema::MarkDevice`:
an existing required size must match exactly; otherwise, an existing
maximum bound below the new required value in any dimension is a
conflict (diagnostic + invalid decl); otherwise the attribute is added. -/
def markDeviceApplyReqdWGS (K : KernelAttrState) (attr : WGSize) : KernelAttrState :=
  match K.reqdWorkGroupSize with
  | some existing =>
      if existing.x ≠ attr.x ∨ existing.y ≠ attr.y ∨ existing.z ≠ attr.z then
        { K with conflictDiagnosed := true, invalidDecl := true }
      else K
  | none =>
      match K.maxWorkGroupSize with
      | some existing =>
          if existing.x < attr.x ∨ existing.y < attr.y ∨ existing.z < attr.z then
            { K with conflictDiagnosed := true, invalidDecl := true }
          else { K with reqdWorkGroupSize := some attr }
      | none => { K with reqdWorkGroupSize := some attr }

/-- Mirrors the `attr::Kind::SYCLIntelMaxWorkGroupSize` case of
`Sema::MarkDevice`: an existing required size above the new maximum bound
in any dimension is a conflict (diagnostic + invalid decl); otherwise the
attribute is added. -/
def markDeviceApplyMaxWGS (K : KernelAttrState) (attr : WGSize) : KernelAttrState :=
  match K.reqdWorkGroupSize with
  | some existing =>
      if attr.x < existing.x ∨ attr.y < existing.y ∨ attr.z < existing.z then
        { K with conflictDiagnosed := true, invalidDecl := true }
      else { K with maxWorkGroupSize := some attr }
  | none => { K with maxWorkGroupSize := some attr }

end SemaSYCL

namespace LowerESIMD

/-- Does the rule use the `SRC_CALL_ALL` copy-remaining shortcut? -/
def ArgRule.isSrcCallAll : ArgRule → Bool
  | ArgRule.SRC_CALL_ALL _ => true
  | _ => false

end LowerESIMD

namespace LowerESIMD

theorem foldl_createStep_noShortcut (numArgs : Nat) :
    ∀ (rules : List ArgRule), (∀ r ∈ rules, r.isSrcCallAll = false) →
      ∀ (st : Nat × Nat),
        (rules.foldl (createESIMDIntrinsicArgsStep numArgs) st).2 = st.2 + rules.length := by
  intro rules
  induction rules with
  | nil => intro _ st; simp
  | cons r rest ih =>
      intro hall st
      have hr : r.isSrcCallAll = false := hall r (List.mem_cons_self r rest)
      have hrest : ∀ x ∈ rest, x.isSrcCallAll = false :=
        fun x hx => hall x (List.mem_cons_of_mem r hx)
      have hstep : ∀ st1 : Nat × Nat,
          (createESIMDIntrinsicArgsStep numArgs st1 r).2 = st1.2 + 1 := by
        intro st1
        cases r <;> simp [ArgRule.isSrcCallAll] at hr <;>
          simp [createESIMDIntrinsicArgsStep]
      calc (List.foldl (createESIMDIntrinsicArgsStep numArgs) st (r :: rest)).2
      _ = (List.foldl (createESIMDIntrinsicArgsStep numArgs)
             (createESIMDIntrinsicArgsStep numArgs st r) rest).2 := rfl
      _ = (createESIMDIntrinsicArgsStep numArgs st r).2 + rest.length := ih hrest _
      _ = st.2 + 1 + rest.length := by rw [hstep]
      _ = st.2 + (r :: rest).length := by simp [List.length_cons]; omega

theorem getNumGenXArgs_noShortcut (d : ESIMDIntrinDesc)
    (hall : ∀ r ∈ d.ArgRules, r.isSrcCallAll = false) :
    d.getNumGenXArgs = d.ArgRules.length := by
  unfold ESIMDIntrinDesc.getNumGenXArgs
  cases hL : d.ArgRules.getLast? with
  | none =>
      have : d.ArgRules = [] := by
        cases hAR : d.ArgRules with
        | nil => rfl
        | cons x xs => rw [hAR] at hL; simp [List.getLast?] at hL
      simp [this]
  | some r =>
      have hmem : r ∈ d.ArgRules := by
        obtain ⟨hne, hx⟩ := List.mem_getLast?_eq_getLast (l := d.ArgRules) (x := r)
          (by rw [Option.mem_def]; exact hL)
        exact hx ▸ List.getLast_mem hne
      have hr := hall r hmem
      cases r <;> simp [ArgRule.isSrcCallAll] at hr <;> rfl

end LowerESIMD

namespace LowerESIMD

theorem intrinTable_ruleShapes :
    ∀ p ∈ ESIMDIntrinDescTableEntries,
      (∀ r ∈ p.2.ArgRules, r.isSrcCallAll = false) ∨
      (p.2.ArgRules = [ArgRule.SRC_CALL_ALL p.2.getNumGenXArgs]) := by decide

/-- Claim C1, counterexample: for the concrete base name
"missing_intrinsic", which has no entry in the rewrite rule table, the
lowering does not skip the call silently — `getIntrinDesc` issues
`report_fatal_error`, so the outcome is a fatal abort, contradicting the
claimed silent skip. -/
theorem C1_counterexample :
    lookupIntrinTable "missing_intrinsic" = none ∧
    translateESIMDIntrinsicOutcome "missing_intrinsic" ≠ TranslateOutcome.skipped := by
  exact ⟨by decide, by decide⟩

/-- Claim C1 (amended): for every call whose ESIMD base name has no entry
in the rewrite rule table, the lowering engine aborts compilation with a
fatal "unknown ESIMD intrinsic" error (the silent-skip branch guarded by
`!Desc.isValid()` is unreachable for missing entries because
`getIntrinDesc` aborts first). -/
theorem C1_missing_entry_is_fatal (baseName : String)
    (h : lookupIntrinTable baseName = none) :
    translateESIMDIntrinsicOutcome baseName = TranslateOutcome.fatalError := by
  unfold translateESIMDIntrinsicOutcome getIntrinDesc
  rw [h]

/-- Witness for `C1_missing_entry_is_fatal` at the concrete base name
"not_in_table". -/
theorem C1_missing_entry_is_fatal_witness :
    translateESIMDIntrinsicOutcome "not_in_table" = TranslateOutcome.fatalError :=
  C1_missing_entry_is_fatal "not_in_table" (by decide)

/-- Claim C2, counterexample: for the table rule of "vload" (the
copy-remaining shortcut `l(0)`, stored remaining-argument count 0)
evaluated against a source call with one operand (satisfying the loop's
`LastCppArgNo < CI.getNumArgOperands()` assertion), the materialized
argument count is 1 while `getNumGenXArgs()` returns 0. -/
theorem C2_counterexample :
    lookupIntrinTable "vload" =
      some { GenXSpelling := "vload", ArgRules := [ArgRule.SRC_CALL_ALL 0] } ∧
    createESIMDIntrinsicArgsCount [ArgRule.SRC_CALL_ALL 0] 1 ≠
      ESIMDIntrinDesc.getNumGenXArgs
        { GenXSpelling := "vload", ArgRules := [ArgRule.SRC_CALL_ALL 0] } := by
  exact ⟨by decide, by decide⟩

/-- Claim C2 (amended): for every rewrite rule in the table whose
argument-construction list does not use the copy-remaining shortcut, the
materialized target-argument count equals `getNumGenXArgs()`; for the
rules that do use the shortcut (all of which consist of the shortcut rule
alone), the materialized count is the full source-call operand count,
not the stored remaining-argument count. -/
theorem C2_argCount_vs_getNumGenXArgs :
    ∀ p ∈ ESIMDIntrinDescTableEntries, ∀ numArgOperands : Nat,
      createESIMDIntrinsicArgsCount p.2.ArgRules numArgOperands =
        (if p.2.ArgRules.any ArgRule.isSrcCallAll then numArgOperands
         else p.2.getNumGenXArgs) := by
  intro p hp n
  cases intrinTable_ruleShapes p hp with
  | inl hno =>
      have hanyf : p.2.ArgRules.any ArgRule.isSrcCallAll = false := by
        rw [List.any_eq_false]
        intro r hr
        simp [hno r hr]
      rw [if_neg (by simp [hanyf])]
      unfold createESIMDIntrinsicArgsCount
      rw [foldl_createStep_noShortcut n p.2.ArgRules hno (0, 0),
          getNumGenXArgs_noShortcut p.2 hno]
      simp
  | inr hsingle =>
      rw [hsingle]
      simp [createESIMDIntrinsicArgsCount, createESIMDIntrinsicArgsStep,
            ArgRule.isSrcCallAll]

/-- Witness for `C2_argCount_vs_getNumGenXArgs` at the concrete "vload"
table entry and a one-operand source call. -/
theorem C2_argCount_witness :
    createESIMDIntrinsicArgsCount
        (ESIMDIntrinDesc.ArgRules { GenXSpelling := "vload",
                                    ArgRules := [ArgRule.SRC_CALL_ALL 0] }) 1 =
      (if (ESIMDIntrinDesc.ArgRules { GenXSpelling := "vload",
                                      ArgRules := [ArgRule.SRC_CALL_ALL 0] }).any
            ArgRule.isSrcCallAll then 1
       else ESIMDIntrinDesc.getNumGenXArgs { GenXSpelling := "vload",
                                             ArgRules := [ArgRule.SRC_CALL_ALL 0] }) :=
  C2_argCount_vs_getNumGenXArgs
    ("vload", { GenXSpelling := "vload", ArgRules := [ArgRule.SRC_CALL_ALL 0] })
    (by decide) 1

end LowerESIMD

namespace LowerESIMD

/-- Claim C5: the binary-op suffix rule maps each of the opcode values
0x0–0xc, 0x10–0x12 and 0xff to exactly the documented suffix string, and
every opcode value outside that set hits the fatal
`llvm_unreachable("unknown atomic OP")` arm (modelled as `none`). -/
theorem C5_binop_suffix_map :
    (∀ pair ∈ binOpSuffixPairs, getESIMDBinOpSuffix pair.1 = some pair.2) ∧
    (∀ opId : Int, opId ∉ binOpSuffixPairs.map Prod.fst →
        getESIMDBinOpSuffix opId = none) := by
  constructor
  · decide
  · intro opId h
    simp only [binOpSuffixPairs, List.map_cons, List.map_nil, List.mem_cons,
               List.mem_singleton, not_or] at h
    obtain ⟨h0, h1, h2, h3, h4, h5, h6, h7, h8, h9, h10, h11, h12, h13, h14,
            h15, h16⟩ := h
    simp [getESIMDBinOpSuffix, h0, h1, h2, h3, h4, h5, h6, h7, h8, h9, h10,
          h11, h12, h13, h14, h15, h16]

/-- Witness for `C5_binop_suffix_map`: opcode 0x0 yields ".add" and the
undocumented opcode 0xd is fatal. -/
theorem C5_binop_suffix_map_witness :
    getESIMDBinOpSuffix 0x0 = some ".add" ∧ getESIMDBinOpSuffix 0xd = none :=
  ⟨C5_binop_suffix_map.1 (0x0, ".add") (by decide),
   C5_binop_suffix_map.2 0xd (by decide)⟩

/-- Claim C7: for each dimension x/y/z, the global-linear-id query
(`__spirv_GlobalInvocationId_*`) is lowered to
`local_id + workgroup_size * group_id` and the global-size query
(`__spirv_GlobalSize_*`) to `workgroup_size * num_workgroups`, built from
the GenX local-id (`local.id`), local-size (`local.size`), group-id
(`group.id.*`) and group-count (`group.count`) intrinsics. -/
theorem C7_spirv_global_queries :
    (translateSpirvIntrinsic "GlobalInvocationId_xv" =
       some (SpirvValue.add (SpirvValue.vecExtract "local.id.v3i32" 0)
         (SpirvValue.mul (SpirvValue.vecExtract "local.size.v3i32" 0)
           (SpirvValue.scalarCall "group.id.x")))) ∧
    (translateSpirvIntrinsic "GlobalInvocationId_yv" =
       some (SpirvValue.add (SpirvValue.vecExtract "local.id.v3i32" 1)
         (SpirvValue.mul (SpirvValue.vecExtract "local.size.v3i32" 1)
           (SpirvValue.scalarCall "group.id.y")))) ∧
    (translateSpirvIntrinsic "GlobalInvocationId_zv" =
       some (SpirvValue.add (SpirvValue.vecExtract "local.id.v3i32" 2)
         (SpirvValue.mul (SpirvValue.vecExtract "local.size.v3i32" 2)
           (SpirvValue.scalarCall "group.id.z")))) ∧
    (translateSpirvIntrinsic "GlobalSize_xv" =
       some (SpirvValue.mul (SpirvValue.vecExtract "local.size.v3i32" 0)
         (SpirvValue.vecExtract "group.count.v3i32" 0))) ∧
    (translateSpirvIntrinsic "GlobalSize_yv" =
       some (SpirvValue.mul (SpirvValue.vecExtract "local.size.v3i32" 1)
         (SpirvValue.vecExtract "group.count.v3i32" 1))) ∧
    (translateSpirvIntrinsic "GlobalSize_zv" =
       some (SpirvValue.mul (SpirvValue.vecExtract "local.size.v3i32" 2)
         (SpirvValue.vecExtract "group.count.v3i32" 2))) := by
  refine ⟨?_, ?_, ?_, ?_, ?_, ?_⟩ <;> decide

/-- Claim C10: a function without the `!sycl_explicit_simd` marker
metadata is returned by the pass with all analyses preserved and its
instruction stream untouched, for any genx-volatile configuration. -/
theorem C10_no_marker_is_noop (vl vs : Bool) (F : MFunction)
    (h : F.hasExplicitSimdMD = false) :
    SYCLLowerESIMDPassRun vl vs F = (MPreservedAnalyses.all, F) := by
  unfold SYCLLowerESIMDPassRun
  rw [h]
  simp

/-- Witness for `C10_no_marker_is_noop` at a concrete unmarked function
containing an ESIMD-looking call. -/
theorem C10_no_marker_is_noop_witness :
    SYCLLowerESIMDPassRun false false
        { hasExplicitSimdMD := false,
          instructions := [MInstr.call "_Z19__esimd_flat_atomic0abc", MInstr.other] } =
      (MPreservedAnalyses.all,
       { hasExplicitSimdMD := false,
         instructions := [MInstr.call "_Z19__esimd_flat_atomic0abc", MInstr.other] }) :=
  C10_no_marker_is_noop false false _ (by decide)

end LowerESIMD

namespace SemaSYCL

mutual

theorem unionCheckerReportsField_spec (uc : Nat) (f : UField) :
    unionCheckerReportsField uc f = hasResourceInsideUnionField (decide (0 < uc)) f := by
  cases f with
  | resourceF => rfl
  | otherF => rfl
  | unionF members =>
      have h := unionCheckerReportsList_spec (uc + 1) members
      simp only [unionCheckerReportsField, hasResourceInsideUnionField]
      rw [h]
      simp
  | structF members =>
      have h := unionCheckerReportsList_spec uc members
      simp only [unionCheckerReportsField, hasResourceInsideUnionField]
      rw [h]

theorem unionCheckerReportsList_spec (uc : Nat) (fs : List UField) :
    unionCheckerReportsList uc fs = hasResourceInsideUnionList (decide (0 < uc)) fs := by
  cases fs with
  | nil => rfl
  | cons f rest =>
      simp only [unionCheckerReportsList, hasResourceInsideUnionList]
      rw [unionCheckerReportsField_spec uc f, unionCheckerReportsList_spec uc rest]

end

/-- Claim C3, counterexample: a kernel object whose single field is a
union containing exactly one resource-type field is rejected by the
union checker (`isValid()` returns false), while the claim says it is
accepted as legal. -/
theorem C3_counterexample :
    unionCheckerIsValid [UField.unionF [UField.resourceF]] = false := by
  decide

/-- Claim C3 (amended): the union legality checker rejects every
resource-type (accessor/sampler/stream) field that appears anywhere
inside a union — even a union containing exactly one resource-type field
— and accepts exactly the kernel objects with no resource-type field
inside any union. -/
theorem C3_union_checker_rejects_any_resource_in_union :
    ∀ kernelObjFields : List UField,
      unionCheckerIsValid kernelObjFields =
        !(hasResourceInsideUnionList false kernelObjFields) := by
  intro fs
  unfold unionCheckerIsValid
  rw [unionCheckerReportsList_spec 0 fs]
  simp

mutual

theorem bodyWalkTy_balanced (t : BTy) : ∀ stk : List InitEntry,
    bodyWalkTy stk t = stk := by
  cases t with
  | leafB => intro stk; simp [bodyWalkTy]
  | streamB => intro stk; simp [bodyWalkTy, List.dropLast_concat]
  | structB bases fields =>
      intro stk
      simp only [bodyWalkTy]
      rw [bodyWalkList_balanced bases, bodyWalkList_balanced fields,
          List.dropLast_concat]
  | arrayB elem count =>
      intro stk
      simp only [bodyWalkTy]
      rw [bodyWalkElems_balanced elem count, List.dropLast_concat]

theorem bodyWalkList_balanced (ts : List BTy) : ∀ stk : List InitEntry,
    bodyWalkList stk ts = stk := by
  cases ts with
  | nil => intro stk; simp [bodyWalkList]
  | cons t rest =>
      intro stk
      simp only [bodyWalkList]
      rw [bodyWalkTy_balanced t, bodyWalkList_balanced rest]

theorem bodyWalkElems_balanced (elem : BTy) (n : Nat) : ∀ stk : List InitEntry,
    bodyWalkElems stk elem n = stk := by
  cases n with
  | zero => intro stk; simp [bodyWalkElems]
  | succ k =>
      intro stk
      simp only [bodyWalkElems]
      rw [bodyWalkElems_balanced elem k, bodyWalkTy_balanced elem]

end

/-- Claim C6: after the body synthesizer finishes walking any kernel
object, exactly one entry remains on the collection-initializer stack —
the top-level object initializer pushed by the constructor — because
every enter of a struct, stream or array pushes exactly one entry that
the matching leave pops (`CollectionInitExprs.size() == 1` in
`createKernelBody`). -/
theorem C6_one_stack_entry_remains :
    ∀ kernelObjFields : List BTy,
      bodyCreatorFinalStack kernelObjFields = [InitEntry.topE] := by
  intro fs
  unfold bodyCreatorFinalStack
  exact bodyWalkList_balanced fs [InitEntry.topE]

end SemaSYCL

namespace SemaSYCL

mutual

theorem ihWalkTy_spec (t : HTy) : ∀ (S : IHState) (link : Int),
    ihWalkTy S link t =
      { CurOffset := S.CurOffset, ArrayBaseOffsets := S.ArrayBaseOffsets,
        ParamOffsets := S.ParamOffsets ++ paramOffsetsSpec S.CurOffset link t } := by
  cases t with
  | leaf =>
      intro S link
      simp [ihWalkTy, ihAddParam, paramOffsetsSpec]
  | record bases fields decomp =>
      cases decomp with
      | false =>
          intro S link
          simp [ihWalkTy, ihAddParam, paramOffsetsSpec]
      | true =>
          intro S link
          simp only [ihWalkTy]
          rw [ihWalkEdges_spec bases (ihEnterStruct S link)]
          rw [ihWalkEdges_spec fields _]
          simp [ihEnterStruct, ihLeaveStruct, paramOffsetsSpec]
  | array elemSize count elem decomp =>
      cases decomp with
      | false =>
          intro S link
          simp [ihWalkTy, ihAddParam, paramOffsetsSpec]
      | true =>
          intro S link
          simp only [ihWalkTy]
          rw [ihWalkElems_spec elem count (ihEnterArray S link) elemSize]
          simp [ihEnterArray, ihLeaveArray, paramOffsetsSpec,
                List.getLast?_concat, List.dropLast_concat]

theorem ihWalkEdges_spec (es : List (Int × HTy)) : ∀ S : IHState,
    ihWalkEdges S es =
      { CurOffset := S.CurOffset, ArrayBaseOffsets := S.ArrayBaseOffsets,
        ParamOffsets := S.ParamOffsets ++ paramOffsetsSpecEdges S.CurOffset es } := by
  cases es with
  | nil =>
      intro S
      simp [ihWalkEdges, paramOffsetsSpecEdges]
  | cons e rest =>
      intro S
      obtain ⟨off, t⟩ := e
      simp only [ihWalkEdges]
      rw [ihWalkTy_spec t S off, ihWalkEdges_spec rest _]
      simp [paramOffsetsSpecEdges]

theorem ihWalkElems_spec (elem : HTy) (n : Nat) : ∀ (S : IHState) (elemSize : Int),
    ihWalkElems S elemSize elem n =
      { CurOffset :=
          (match n with
           | 0 => S.CurOffset
           | Nat.succ k => (S.ArrayBaseOffsets.getLast?.getD 0) + elemSize * k),
        ArrayBaseOffsets := S.ArrayBaseOffsets,
        ParamOffsets := S.ParamOffsets ++
          paramOffsetsSpecElems (S.ArrayBaseOffsets.getLast?.getD 0) elemSize elem n } := by
  cases n with
  | zero =>
      intro S elemSize
      simp [ihWalkElems, paramOffsetsSpecElems]
  | succ k =>
      intro S elemSize
      simp only [ihWalkElems]
      rw [ihWalkElems_spec elem k S elemSize]
      rw [ihWalkTy_spec elem _ 0]
      simp [ihNextElement, paramOffsetsSpecElems]

end

/-- Claim C4: the parameter-descriptor offsets recorded by the
integration-header creator obey the compositional layout semantics — the
offset for element `i` of a decomposed array is the array's base offset
plus `i * elemSize`, and offsets under a base class are shifted by the
base-class offset (`paramOffsetsSpec`) — and for a struct with 4-byte
fields at offsets 0, 8, 16 plus a decomposed 4-element array of a 4-byte
scalar at offset 20 the recorded offsets are 0, 8, 16, 20, 24, 28, 32. -/
theorem C4_param_offsets :
    (∀ (t : HTy) (S : IHState) (link : Int),
        (ihWalkTy S link t).ParamOffsets =
          S.ParamOffsets ++ paramOffsetsSpec S.CurOffset link t) ∧
    (ihWalkTy ihInitState 0 exampleKernelObj).ParamOffsets =
      [0, 8, 16, 20, 24, 28, 32] := by
  constructor
  · intro t S link
    rw [ihWalkTy_spec t S link]
  · rw [ihWalkTy_spec exampleKernelObj ihInitState 0]
    simp [ihInitState, exampleKernelObj, paramOffsetsSpec, paramOffsetsSpecEdges,
          paramOffsetsSpecElems]

end SemaSYCL

namespace SemaSYCL

mutual

theorem declWalkField_no_rawPtr (f : DField) : ∀ (structDepth : Nat) (p : MParamTy),
    0 < structDepth → p ∈ declWalkField structDepth f → p.isRawPtr = false := by
  cases f with
  | scalarD =>
      intro depth p _ hp
      simp [declWalkField] at hp
      simp [hp, MParamTy.isRawPtr]
  | pointerD pointeeAS =>
      intro depth p hd hp
      simp [declWalkField, declHandlePointerType, Nat.pos_iff_ne_zero.mp hd] at hp
      simp [hp, MParamTy.isRawPtr]
  | simpleArrayD =>
      intro depth p _ hp
      simp [declWalkField] at hp
      simp [hp, MParamTy.isRawPtr]
  | structD members =>
      intro depth p _ hp
      simp only [declWalkField] at hp
      exact declWalkFields_no_rawPtr members (depth + 1) p (Nat.succ_pos depth) hp

theorem declWalkFields_no_rawPtr (fs : List DField) : ∀ (structDepth : Nat) (p : MParamTy),
    0 < structDepth → p ∈ declWalkFields structDepth fs → p.isRawPtr = false := by
  cases fs with
  | nil =>
      intro depth p _ hp
      simp [declWalkFields] at hp
  | cons f rest =>
      intro depth p hd hp
      simp only [declWalkFields, List.mem_append] at hp
      cases hp with
      | inl h => exact declWalkField_no_rawPtr f depth p hd h
      | inr h => exact declWalkFields_no_rawPtr rest depth p hd h

end

/-- Claim C8: a pointer field at the top level of the kernel object
(struct depth 0) becomes a raw address-space-adjusted pointer kernel
parameter; a pointer field reached below the top level (struct depth
greater than 0) never yields a raw pointer parameter — it is wrapped in
the synthetic one-field `__wrapper_class` carrying the adjusted pointer. -/
theorem C8_pointer_wrapping :
    (∀ pointeeAS : AddrSpace,
        declWalkFields 0 [DField.pointerD pointeeAS] =
          [MParamTy.rawPtr (adjustPointerAS pointeeAS)]) ∧
    (∀ (structDepth : Nat) (pointeeAS : AddrSpace), 0 < structDepth →
        declHandlePointerType structDepth pointeeAS =
          MParamTy.wrapperStruct (MParamTy.rawPtr (adjustPointerAS pointeeAS))) ∧
    (∀ (structDepth : Nat) (fs : List DField) (p : MParamTy), 0 < structDepth →
        p ∈ declWalkFields structDepth fs → p.isRawPtr = false) ∧
    (∀ pointeeAS : AddrSpace,
        declWalkFields 0 [DField.structD [DField.pointerD pointeeAS]] =
          [MParamTy.wrapperStruct (MParamTy.rawPtr (adjustPointerAS pointeeAS))]) := by
  refine ⟨?_, ?_, ?_, ?_⟩
  · intro pointeeAS
    simp [declWalkFields, declWalkField, declHandlePointerType]
  · intro depth pointeeAS hd
    simp [declHandlePointerType, Nat.pos_iff_ne_zero.mp hd]
  · intro depth fs p hd hp
    exact declWalkFields_no_rawPtr fs depth p hd hp
  · intro pointeeAS
    simp [declWalkFields, declWalkField, declHandlePointerType]

/-- Witness for `C8_pointer_wrapping`: a pointer one level deep with an
unqualified pointee is wrapped, and the wrapper-typed parameter a nested
walk produces is not a raw pointer. -/
theorem C8_pointer_wrapping_witness :
    declHandlePointerType 1 AddrSpace.defaultAS =
      MParamTy.wrapperStruct (MParamTy.rawPtr (adjustPointerAS AddrSpace.defaultAS)) ∧
    (MParamTy.wrapperStruct (MParamTy.rawPtr AddrSpace.openclGlobal)).isRawPtr = false :=
  ⟨C8_pointer_wrapping.2.1 1 AddrSpace.defaultAS (by decide),
   C8_pointer_wrapping.2.2.1 1 [DField.pointerD AddrSpace.defaultAS]
     (MParamTy.wrapperStruct (MParamTy.rawPtr AddrSpace.openclGlobal))
     (by decide) (by simp [declWalkFields, declWalkField, declHandlePointerType,
                           adjustPointerAS])⟩

/-- Claim C9: during attribute propagation in `Sema::MarkDevice`, when a
kernel would end up with both a required work-group size and a maximum
work-group size and the required value exceeds the maximum bound in some
dimension, the conflicting-attributes diagnostic is emitted and the
kernel is marked invalid (in both propagation orders); when the required
value is within the bound, the attribute is added with no diagnostic. -/
theorem C9_wgsize_conflicts :
    (∀ (K : KernelAttrState) (m r : WGSize),
        K.maxWorkGroupSize = some m → K.reqdWorkGroupSize = none →
        ((m.x < r.x ∨ m.y < r.y ∨ m.z < r.z) →
            markDeviceApplyReqdWGS K r =
              { K with conflictDiagnosed := true, invalidDecl := true }) ∧
        (¬(m.x < r.x ∨ m.y < r.y ∨ m.z < r.z) →
            markDeviceApplyReqdWGS K r = { K with reqdWorkGroupSize := some r })) ∧
    (∀ (K : KernelAttrState) (r m : WGSize),
        K.reqdWorkGroupSize = some r →
        ((m.x < r.x ∨ m.y < r.y ∨ m.z < r.z) →
            markDeviceApplyMaxWGS K m =
              { K with conflictDiagnosed := true, invalidDecl := true }) ∧
        (¬(m.x < r.x ∨ m.y < r.y ∨ m.z < r.z) →
            markDeviceApplyMaxWGS K m = { K with maxWorkGroupSize := some m })) := by
  constructor
  · intro K m r hmax hreqd
    constructor
    · intro hexceeds
      unfold markDeviceApplyReqdWGS
      rw [hreqd, hmax]
      simp [hexceeds]
    · intro hwithin
      unfold markDeviceApplyReqdWGS
      rw [hreqd, hmax]
      simp [hwithin]
  · intro K r m hreqd
    constructor
    · intro hexceeds
      unfold markDeviceApplyMaxWGS
      rw [hreqd]
      simp [hexceeds]
    · intro hwithin
      unfold markDeviceApplyMaxWGS
      rw [hreqd]
      simp [hwithin]

/-- Witness for `C9_wgsize_conflicts`: with a maximum bound of (4,4,4), a
required size of (8,1,1) conflicts (diagnostic + invalid), and a required
size of (2,2,2) is applied without error. -/
theorem C9_wgsize_conflicts_witness :
    (markDeviceApplyReqdWGS
        { reqdWorkGroupSize := none, maxWorkGroupSize := some ⟨4, 4, 4⟩,
          invalidDecl := false, conflictDiagnosed := false } ⟨8, 1, 1⟩ =
      { reqdWorkGroupSize := none, maxWorkGroupSize := some ⟨4, 4, 4⟩,
        invalidDecl := true, conflictDiagnosed := true }) ∧
    (markDeviceApplyReqdWGS
        { reqdWorkGroupSize := none, maxWorkGroupSize := some ⟨4, 4, 4⟩,
          invalidDecl := false, conflictDiagnosed := false } ⟨2, 2, 2⟩ =
      { reqdWorkGroupSize := some ⟨2, 2, 2⟩, maxWorkGroupSize := some ⟨4, 4, 4⟩,
        invalidDecl := false, conflictDiagnosed := false }) :=
  ⟨(C9_wgsize_conflicts.1
      { reqdWorkGroupSize := none, maxWorkGroupSize := some ⟨4, 4, 4⟩,
        invalidDecl := false, conflictDiagnosed := false } ⟨4, 4, 4⟩ ⟨8, 1, 1⟩
      rfl rfl).1 (by decide),
   (C9_wgsize_conflicts.1
      { reqdWorkGroupSize := none, maxWorkGroupSize := some ⟨4, 4, 4⟩,
        invalidDecl := false, conflictDiagnosed := false } ⟨4, 4, 4⟩ ⟨2, 2, 2⟩
      rfl rfl).2 (by decide)⟩

end SemaSYCL
